import Mathlib

/-!
Verification of the conversational-assistant repository: a shallow embedding
of the keyword router (src/graph.py), the document search tool
(src/tools/docs.py) and the Agentic-RAG sub-graph (src/rag/graph.py),
together with theorems settling the spec claims about them.

Python strings are modelled as Lean `String`; the handful of string
operations the code uses (`lower`, `upper`, `strip`, `split`, slicing and
the `in` substring test) are defined here by structural recursion over the
character list so that concrete instances evaluate inside the kernel.
`str.lower`/`str.upper` are modelled on the ASCII and Latin-1 letter ranges,
which cover every character appearing in the repository's keyword lists,
prompts and catalog.  Python `float` arithmetic on scores is modelled with
`ℚ`; all score constants of the code (2, 1, 1.5, 0.6, 0.4, 0.15) are exact
binary floats combined only by addition and multiplication on this data,
so the rational model computes scores faithfully.
-/

/-- Lower-case a character: ASCII `A`-`Z` and Latin-1 `À`-`Þ` (except `×`)
are shifted by 32, as Python `str.lower` does on these ranges. -/
def charLower (c : Char) : Char :=
  if 65 ≤ c.toNat ∧ c.toNat ≤ 90 then Char.ofNat (c.toNat + 32)
  else if 192 ≤ c.toNat ∧ c.toNat ≤ 222 ∧ c.toNat ≠ 215 then Char.ofNat (c.toNat + 32)
  else c

/-- Upper-case a character on the same two ranges (Python `str.upper`). -/
def charUpper (c : Char) : Char :=
  if 97 ≤ c.toNat ∧ c.toNat ≤ 122 then Char.ofNat (c.toNat - 32)
  else if 224 ≤ c.toNat ∧ c.toNat ≤ 254 ∧ c.toNat ≠ 247 then Char.ofNat (c.toNat - 32)
  else c

/-- Python `s.lower()`. -/
def pyLower (s : String) : String := ⟨s.data.map charLower⟩

/-- Python `s.upper()`. -/
def pyUpper (s : String) : String := ⟨s.data.map charUpper⟩

/-- Python slice `s[:n]` (by code points, like Python). -/
def pyTake (s : String) (n : ℕ) : String := ⟨s.data.take n⟩

/-- The whitespace characters stripped by Python `str.strip()` that occur in
this repository's data. -/
def isSpaceChar (c : Char) : Bool :=
  c == ' ' || c == '\t' || c == '\n' || c == '\r'

/-- Python `s.strip()`. -/
def pyStrip (s : String) : String :=
  ⟨((s.data.dropWhile isSpaceChar).reverse.dropWhile isSpaceChar).reverse⟩

/-- Whether `pat` is a prefix of `s` (character lists). -/
def listIsPref : List Char → List Char → Bool
  | [], _ => true
  | _ :: _, [] => false
  | a :: as, b :: bs => a == b && listIsPref as bs

/-- Whether `pat` occurs as a contiguous sublist of `s`. -/
def listOccurs (pat : List Char) : List Char → Bool
  | [] => listIsPref pat []
  | b :: rest => listIsPref pat (b :: rest) || listOccurs pat rest

/-- Python `pat in s` on strings: substring containment. -/
def pyIn (pat s : String) : Bool := listOccurs pat.data s.data

/-- Helper for `pySplitWs`: accumulate the current (reversed) token. -/
def splitWsGo : List Char → List Char → List String
  | [], acc => if acc.isEmpty then [] else [String.mk acc.reverse]
  | c :: cs, acc =>
    if isSpaceChar c then
      if acc.isEmpty then splitWsGo cs [] else String.mk acc.reverse :: splitWsGo cs []
    else splitWsGo cs (c :: acc)

/-- Python `s.split()`: split on whitespace runs, dropping empty tokens. -/
def pySplitWs (s : String) : List String := splitWsGo s.data []

/-- Helper for `pySplitNl`. -/
def splitNlGo : List Char → List Char → List String
  | [], acc => [String.mk acc.reverse]
  | c :: cs, acc =>
    if c == '\n' then String.mk acc.reverse :: splitNlGo cs []
    else splitNlGo cs (c :: acc)

/-- Python `s.split("\n")`: keeps empty pieces. -/
def pySplitNl (s : String) : List String := splitNlGo s.data []

/-- Python `int()` on a (non-negative or negative) rational: truncation
toward zero. -/
def pyInt (q : ℚ) : ℤ := if q < 0 then -((-q).floor) else q.floor

/-!
Keyword router, from `router_node` in src/graph.py (lines 92-186).
A message carries a role tag and its text content; `router_node` reads the
last message of the history.  (For a `HumanMessage` the code lowercases
`content` directly, otherwise it lowercases `str(content)`; with string
contents both branches are the same lowering.)
-/

/-- A chat message: role tag and text content. -/
structure Msg where
  role : String
  content : String
deriving DecidableEq

/-- `finance_keywords` of src/graph.py lines 133-137 (note `presupuesto`
appears twice in the source list and is therefore counted twice). -/
def finance_keywords : List String :=
  ["dinero", "gasto", "presupuesto", "gastos", "financiero",
   "salario", "ingresos", "presupuesto", "tarjeta", "banco",
   "balance", "cuenta", "pago", "factura", "deuda", "costo"]

/-- `health_keywords` of src/graph.py lines 139-143. -/
def health_keywords : List String :=
  ["ejercicio", "hábito", "salud", "gym", "deporte", "médico",
   "medicina", "ejercitar", "correr", "caminar", "yoga", "meditación",
   "hábitos", "rutina", "entrenamiento", "actividad", "peso"]

/-- `docs_keywords` of src/graph.py lines 145-149. -/
def docs_keywords : List String :=
  ["documento", "contrato", "póliza", "información", "buscar",
   "seguro", "archivo", "plan", "calendario", "fecha", "emergencia",
   "contacto", "teléfono", "dirección", "referencia", "consultá"]

/-- `drive_keywords` of src/graph.py lines 152-156. -/
def drive_keywords : List String :=
  ["google drive", "drive", "archivo", "carpeta", "cloud", "adjunto",
   "descargar", "compartido", "fotos", "documentos", "nube", "guardar",
   "drive compartido", "mi drive", "archivo en la nube"]

/-- `sum(1 for kw in keywords if kw in user_text)` of src/graph.py
lines 159-162: the number of list entries occurring as substrings. -/
def countKeywords (kws : List String) (text : String) : ℕ :=
  (kws.filter (fun kw => pyIn kw text)).length

/-- The `if`/`elif` cascade of src/graph.py lines 170-179 choosing the
context from the four scores. -/
def selectContext (drive_score finance_score health_score docs_score : ℕ) : String :=
  if drive_score > finance_score ∧ drive_score > health_score ∧
      drive_score > docs_score ∧ drive_score > 0 then "drive"
  else if finance_score > health_score ∧ finance_score > docs_score ∧
      finance_score > 0 then "finance"
  else if health_score > docs_score ∧ health_score > 0 then "health"
  else if docs_score > 0 then "docs"
  else "general"

/-- Scoring and selection of src/graph.py lines 159-179, applied to the
already lower-cased utterance. -/
def classifyText (user_text : String) : String :=
  let finance_score := countKeywords finance_keywords user_text
  let health_score := countKeywords health_keywords user_text
  let docs_score := countKeywords docs_keywords user_text
  let drive_score := countKeywords drive_keywords user_text
  selectContext drive_score finance_score health_score docs_score

/-- `router_node` of src/graph.py lines 92-186: empty history returns
`general` immediately; otherwise the last message's content is lower-cased
and classified. -/
def router_node (messages : List Msg) : String :=
  match messages.getLast? with
  | none => "general"
  | some m => classifyText (pyLower m.content)

/-- The `try`/`except` wrapper of `router_node` (src/graph.py lines 116 and
184-186): an `ok` body result is returned as is, any raised error is
swallowed and `general` is returned. -/
def router_node_guarded (body : Except String String) : String :=
  match body with
  | .ok ctx => ctx
  | .error _ => "general"

/-!
Document search, from src/tools/docs.py.  `_calculate_similarity` wraps
`difflib.SequenceMatcher(None, query.lower(), text.lower()).ratio()`, a
deterministic standard-library routine external to this repository; it is
modelled as an explicit function parameter `sim` (applied, as in the source,
to the un-lowered arguments, since the lowering happens inside the helper).
Every theorem below holds for an arbitrary such function.
-/

/-- A catalog document: `id`, `title`, `content`, `category`, `tags`
(src/tools/docs.py MOCK_DOCS entries). -/
structure Doc where
  id : ℤ
  title : String
  content : String
  category : String
  tags : List String
deriving DecidableEq

/-- A search hit as built by `_search_documents`: the document, its combined
score and the match reason. -/
structure SearchResult where
  doc : Doc
  score : ℚ
  reason : String
deriving DecidableEq

/-- The text-similarity oracle standing for `_calculate_similarity`. -/
abbrev Sim := String → String → ℚ

/-- `MOCK_DOCS` of src/tools/docs.py lines 38-280. -/
def MOCK_DOCS : List Doc :=
  [{ id := 1,
     title := "Póliza de Seguro de Auto",
     content :=
       "Póliza de Seguro de Auto - Documento oficial\n" ++
       "Asegurador: Global Insurance Inc.\n" ++
       "Tipo de cobertura: Comprehensive + Collision\n" ++
       "Cubre daños a terceros hasta $50,000\n" ++
       "Cubre daños propios hasta $30,000\n" ++
       "Deducible: $500\n" ++
       "Vigencia: 2025-01-01 hasta 2026-01-01\n" ++
       "Vence: 2026-01-01\n" ++
       "Número de Póliza: POL-2025-AUTO-12345\n" ++
       "Contacto de Emergencia: 1-800-555-INSURANCE\n" ++
       "Procedimiento en caso de accidente:\n" ++
       "1. Llamar a emergencias\n" ++
       "2. Notificar a la aseguradora dentro de 24 horas\n" ++
       "3. Adjuntar documentos de soporte",
     category := "insurance",
     tags := ["auto", "seguro", "póliza", "cobertura", "deducible"] },
   { id := 2,
     title := "Plan Nutricional Familiar",
     content :=
       "Plan de Nutrición - Programa de Salud Familiar\n" ++
       "Objetivo: Mantener una dieta balanceada y saludable\n" ++
       "\n" ++
       "SEMANA 1:\n" ++
       "Lunes: Pescado a la parrilla con vegetales, arroz integral\n" ++
       "Martes: Pollo al horno con batata y brócoli\n" ++
       "Miércoles: Pavo molido con espagueti integral\n" ++
       "Jueves: Salmón con quinua y espárragos\n" ++
       "Viernes: Pechuga de pollo con ensalada de aguacate\n" ++
       "Sábado: Carne magra con papas al horno\n" ++
       "Domingo: Descanso - comida con familia (sin restricciones)\n" ++
       "\n" ++
       "RECOMENDACIONES:\n" ++
       "- Evitar azúcares refinados\n" ++
       "- Beber 2 litros de agua diaria\n" ++
       "- Consumir frutas entre comidas\n" ++
       "- Proteína en cada comida principal\n" ++
       "- Grasas saludables (aguacate, nueces, aceite de oliva)\n" ++
       "- Evitar alimentos ultraprocesados\n" ++
       "- Snacks saludables: yogur, frutos secos, frutas\n" ++
       "\n" ++
       "ALERGIAS/RESTRICCIONES:\n" ++
       "- Ninguna reportada (revisar anualmente)",
     category := "nutrition",
     tags := ["dieta", "nutrición", "comida", "salud", "alimentos"] },
   { id := 3,
     title := "Contrato de Arrendamiento",
     content :=
       "CONTRATO DE ARRENDAMIENTO DE INMUEBLE\n" ++
       "Celebrado entre:\n" ++
       "ARRENDADOR: Property Management Corp.\n" ++
       "ARRENDATARIO: Tu Familia\n" ++
       "\n" ++
       "PROPIEDADES:\n" ++
       "Dirección: 123 Main Street, Apartment 4B\n" ++
       "Tipo: Apartamento de 2 dormitorios\n" ++
       "\n" ++
       "TÉRMINOS:\n" ++
       "Duración: 12 meses (renovable)\n" ++
       "Fecha de Inicio: 2025-01-01\n" ++
       "Fecha de Vencimiento: 2026-01-01\n" ++
       "Monto de Renta: $1,200 USD mensual\n" ++
       "Día de Pago: Antes del día 5 de cada mes\n" ++
       "Forma de Pago: Transferencia bancaria\n" ++
       "Número de Cuenta: 123-456-789\n" ++
       "\n" ++
       "DEPÓSITO DE SEGURIDAD:\n" ++
       "Monto: $1,200 USD (equivalente a 1 mes)\n" ++
       "Estado: Depositado\n" ++
       "Devolución: Al finalizar contrato (menos daños)\n" ++
       "\n" ++
       "RESPONSABILIDADES DEL ARRENDATARIO:\n" ++
       "- Mantener el inmueble en buen estado\n" ++
       "- Pagar servicios (luz, agua, gas) a tiempo\n" ++
       "- Notificar reparaciones necesarias\n" ++
       "- No permitir subarrendamiento\n" ++
       "\n" ++
       "CAUSALES DE TERMINACIÓN:\n" ++
       "- Falta de pago por 30 días\n" ++
       "- Daños graves al inmueble\n" ++
       "- Violación de cláusulas del contrato",
     category := "legal",
     tags := ["arrendamiento", "renta", "contrato", "pago", "vivienda"] },
   { id := 4,
     title := "Rutina de Ejercicio",
     content :=
       "RUTINA DE EJERCICIO - Programa de Fitness Familiar\n" ++
       "Objetivo: Mantener actividad física regular\n" ++
       "Duración de sesión: 45-60 minutos\n" ++
       "\n" ++
       "CALENTAMIENTO (5 minutos):\n" ++
       "- Caminata suave\n" ++
       "- Movimientos articulares dinámicos\n" ++
       "- Estiramientos activos\n" ++
       "\n" ++
       "ENTRENAMIENTO CARDIOVASCULAR (20 minutos):\n" ++
       "- Correr: 3 km\n" ++
       "- O trotar: 5 km\n" ++
       "- O bicicleta: 15 km\n" ++
       "- Intensidad: Moderada (60-75% FCMax)\n" ++
       "\n" ++
       "ENTRENAMIENTO DE FUERZA (20 minutos):\n" ++
       "Lunes: Pecho y tríceps\n" ++
       "Martes: Espalda y bíceps\n" ++
       "Miércoles: Piernas\n" ++
       "Jueves: Hombros y core\n" ++
       "Viernes: HIIT (entrenamiento de alta intensidad)\n" ++
       "\n" ++
       "ENFRIAMIENTO (5-10 minutos):\n" ++
       "- Caminata lenta\n" ++
       "- Estiramientos estáticos\n" ++
       "- Respiración profunda\n" ++
       "\n" ++
       "FRECUENCIA: 5 días a la semana (descanso sábado-domingo)",
     category := "health",
     tags := ["ejercicio", "gym", "fitness", "deporte", "rutina"] },
   { id := 5,
     title := "Presupuesto Mensual Familiar",
     content :=
       "PRESUPUESTO MENSUAL FAMILIAR - 2025\n" ++
       "Ingresos Totales: $4,500 USD\n" ++
       "\n" ++
       "GASTOS FIJOS:\n" ++
       "Renta/Hipoteca: $1,200 (26.7%)\n" ++
       "Servicios (luz, agua, gas): $150 (3.3%)\n" ++
       "Internet/Telefonía: $100 (2.2%)\n" ++
       "Seguro de Auto: $150 (3.3%)\n" ++
       "Seguro de Salud: $250 (5.6%)\n" ++
       "Subtotal Fijos: $1,850\n" ++
       "\n" ++
       "GASTOS VARIABLES:\n" ++
       "Alimentos: $500 (11.1%)\n" ++
       "Transporte: $150 (3.3%)\n" ++
       "Entretenimiento: $150 (3.3%)\n" ++
       "Educación: $200 (4.4%)\n" ++
       "Ropa y Calzado: $100 (2.2%)\n" ++
       "Cuidados Personales: $80 (1.8%)\n" ++
       "Subtotal Variables: $1,180\n" ++
       "\n" ++
       "AHORRO Y METAS:\n" ++
       "Fondo de Emergencia: $400 (8.9%)\n" ++
       "Vacaciones: $200 (4.4%)\n" ++
       "Inversiones: $200 (4.4%)\n" ++
       "Subtotal Ahorro: $800\n" ++
       "\n" ++
       "TOTAL: $3,830 (Sobra: $670 - flexible para ajustes)",
     category := "finance",
     tags := ["presupuesto", "gastos", "finanzas", "dinero", "ingresos"] },
   { id := 6,
     title := "Calendario Médico y Vacunas",
     content :=
       "CALENDARIO MÉDICO Y VACUNAS - Registro de Salud Familiar\n" ++
       "\n" ++
       "CITAS MÉDICAS:\n" ++
       "Juan (Padre):\n" ++
       "- Próximo chequeo general: 2025-02-15\n" ++
       "- Oftalmólogo: 2025-01-30\n" ++
       "- Dentista: Cada 6 meses\n" ++
       "\n" ++
       "María (Madre):\n" ++
       "- Próximo chequeo general: 2025-02-20\n" ++
       "- Ginecólogo: Anualmente\n" ++
       "- Dermatólogo: 2025-03-10\n" ++
       "\n" ++
       "VACUNAS:\n" ++
       "REQUERIDAS:\n" ++
       "- COVID-19: Completar dosis (cada 1 año)\n" ++
       "- Influenza (Gripe): Anual (Octubre-Noviembre)\n" ++
       "- Neumococo: Cada 5 años\n" ++
       "- Tétanos: Cada 10 años\n" ++
       "\n" ++
       "RECOMENDADAS:\n" ++
       "- Shingles (Herpes Zóster): Mayores de 50 años\n" ++
       "- VPH: Jóvenes (si aplica)\n" ++
       "\n" ++
       "REGISTRO DE VACUNACIÓN:\n" ++
       "- COVID: Última dosis 2024-11-15 (próxima: 2025-11-15)\n" ++
       "- Influenza: Última dosis 2024-10-20 (próxima: 2025-10-20)\n" ++
       "- Neumococo: Última dosis 2022-03-10 (próxima: 2027-03-10)",
     category := "health",
     tags := ["vacunas", "médico", "salud", "citas", "chequeo"] },
   { id := 7,
     title := "Números Importantes de Emergencia",
     content :=
       "NÚMEROS IMPORTANTES DE EMERGENCIA\n" ++
       "\n" ++
       "SERVICIOS DE EMERGENCIA:\n" ++
       "Emergencias Médicas (Ambulancia): 911\n" ++
       "Bomberos: 911\n" ++
       "Policía: 911\n" ++
       "\n" ++
       "HOSPITALES CERCANOS:\n" ++
       "Hospital General: (555) 123-4567\n" ++
       "Clínica Privada: (555) 234-5678\n" ++
       "Centro Urgencias 24h: (555) 345-6789\n" ++
       "\n" ++
       "CONTACTOS MÉDICOS:\n" ++
       "Médico General (Dr. Smith): (555) 456-7890\n" ++
       "Dentista (Dra. García): (555) 567-8901\n" ++
       "Oftalmólogo (Dr. Brown): (555) 678-9012\n" ++
       "\n" ++
       "SERVICIOS DE UTILIDAD:\n" ++
       "Servicios de Gas: (555) 789-0123\n" ++
       "Agua y Alcantarillado: (555) 890-1234\n" ++
       "Electricidad: (555) 901-2345\n" ++
       "Internet/Telefonía: (555) 012-3456\n" ++
       "\n" ++
       "SEGUROS:\n" ++
       "Seguro Auto: 1-800-555-AUTO\n" ++
       "Seguro Salud: 1-800-555-HEALTH\n" ++
       "Seguro Hogar: 1-800-555-HOME\n" ++
       "\n" ++
       "CONTACTOS FAMILIARES IMPORTANTES:\n" ++
       "Abuelo paterno (Emergencias): (555) 111-2222\n" ++
       "Tía María (Respaldo): (555) 222-3333\n" ++
       "Primo Carlos (Soporte): (555) 333-4444",
     category := "emergency",
     tags := ["emergencia", "teléfono", "contacto", "hospital", "ayuda"] }]

/-- The per-keyword `tag_matches` accumulation of src/tools/docs.py
lines 339-353: exact tag match +2, else partial tag substring +1, else
title substring +1.5, else category substring +1. -/
def tag_matches (keywords : List String) (doc : Doc) : ℚ :=
  keywords.foldl (fun acc keyword =>
    if keyword ∈ doc.tags.map pyLower then acc + 2
    else if (doc.tags.map pyLower).any (fun tag => pyIn keyword tag) then acc + 1
    else if pyIn keyword (pyLower doc.title) then acc + 1.5
    else if pyIn keyword (pyLower doc.category) then acc + 1
    else acc) 0

/-- Phase 1 of `_search_documents` (src/tools/docs.py lines 333-364): for
each catalog document with a positive keyword score, append a result whose
score combines the keyword score (weight 0.6) with the similarity of the
query to the first 300 characters of the content (weight 0.4). -/
def phase1 (sim : Sim) (docs : List Doc) (query : String) (keywords : List String) :
    List SearchResult :=
  docs.foldl (fun results doc =>
    if 0 < tag_matches keywords doc then
      results ++ [⟨doc, tag_matches keywords doc * 0.6 +
        sim query (pyTake doc.content 300) * 0.4, "tag_match"⟩]
    else results) []

/-- Phase 2 of `_search_documents` (src/tools/docs.py lines 366-381): only
reached when phase 1 found fewer than `top_k` hits; appends, for each
catalog document not already present (by id), a content-similarity result
when the whole-content similarity exceeds 0.15. -/
def phase2 (sim : Sim) (docs : List Doc) (query : String) (init : List SearchResult) :
    List SearchResult :=
  docs.foldl (fun results doc =>
    if results.any (fun r => r.doc.id == doc.id) then results
    else if (0.15 : ℚ) < sim query doc.content then
      results ++ [⟨doc, sim query doc.content, "content_match"⟩]
    else results) init

/-- Stable insertion into a descending-by-score list: the new element goes
after every earlier element of greater-or-equal score. -/
def insertByScore (x : SearchResult) : List SearchResult → List SearchResult
  | [] => [x]
  | y :: ys => if y.score ≤ x.score then x :: y :: ys else y :: insertByScore x ys

/-- Stable descending sort by score, modelling Python
`results.sort(key=lambda x: x["score"], reverse=True)` (a stable sort that
keeps the original order of equal-score results). -/
def sortByScoreDesc : List SearchResult → List SearchResult
  | [] => []
  | x :: xs => insertByScore x (sortByScoreDesc xs)

/-- `_search_documents` of src/tools/docs.py lines 310-385, with the catalog
as an explicit argument (the source reads the module-global `MOCK_DOCS`). -/
def searchDocumentsOver (sim : Sim) (docs : List Doc) (query : String) (top_k : ℕ) :
    List SearchResult :=
  let query_lower := pyLower query
  let keywords := pySplitWs query_lower
  let results := phase1 sim docs query keywords
  let results := if results.length < top_k then phase2 sim docs query results else results
  (sortByScoreDesc results).take top_k

/-- `_search_documents` on the module catalog `MOCK_DOCS` (the Python
default for `top_k` is 3; callers here always pass it explicitly). -/
def _search_documents (sim : Sim) (query : String) (top_k : ℕ) : List SearchResult :=
  searchDocumentsOver sim MOCK_DOCS query top_k

/-!
The `retrieve_documents` tool (src/tools/docs.py lines 392-485).  Every
branch of the Python function returns a string; the formatting below
mirrors the source line by line.
-/

/-- The line of 50 `=` characters (`"=" * 50` in the source). -/
def eqBar : String := String.mk (List.replicate 50 '=')

/-- Formatting of one search hit inside `retrieve_documents`
(src/tools/docs.py lines 452-477). -/
def formatResult (idx : ℕ) (r : SearchResult) : String :=
  let score_percent := pyInt (r.score * 100)
  let relevance_icon :=
    if 80 ≤ score_percent then "⭐⭐⭐"
    else if 60 ≤ score_percent then "⭐⭐"
    else "⭐"
  let preview0 := pyStrip (pyTake r.doc.content 200)
  let preview := if 200 < r.doc.content.length then preview0 ++ "..." else preview0
  toString idx ++ ". " ++ pyUpper r.doc.title ++ " " ++ relevance_icon ++ "\n" ++
  "   Category: " ++ r.doc.category ++ " | Match: " ++ toString score_percent ++ "%\n" ++
  "   Content Preview:\n" ++
  (pySplitNl preview).foldl (fun acc line => acc ++ "   " ++ line ++ "\n") "" ++
  "\n"

/-- `retrieve_documents` of src/tools/docs.py lines 392-485: validates the
query, searches with `top_k = 3`, and formats either a no-results notice or
the result listing.  (The `except` branch of the source is unreachable in
this model since all the operations involved are total.) -/
def retrieve_documents (sim : Sim) (query : String) : String :=
  if query = "" ∨ (pyStrip query).length < 2 then
    "❌ Error: Query too short. Please provide at least 2 characters."
  else
    let results := _search_documents sim query 3
    if results = [] then
      "📭 No relevant documents found for: \x27" ++
        (query ++ "\x27\n" ++
         "Try searching for: insurance, nutrition, contract, exercise, emergency")
    else
      "📄 DOCUMENT RETRIEVAL RESULTS\n" ++
        (eqBar ++ "\n" ++
         "Query: \x27" ++ query ++ "\x27\n" ++
         "Found " ++ toString results.length ++ " document(s):\n\n" ++
         (results.enumFrom 1).foldl (fun acc p => acc ++ formatResult p.1 p.2) "")

/-!
The Agentic-RAG sub-graph, from src/rag/graph.py.

The state's `documents` entry is dynamically typed in Python: nominally a
list of document dicts, but `retrieve_node` stores whatever the bound tool
returned — in the wired configuration a formatted *string* from
`retrieve_documents`.  `DocsVal` captures both shapes.  The oracle (the
hosted LLM) is modelled as a function from the human-message content of a
prompt to `Except String String`: `ok` carries `response.content`, `error`
carries `str(e)` of a raised exception.  Each node's fixed system message
is constant in the source and is not part of the oracle argument.  The
log-message lists returned by the nodes model the `messages` entries of the
returned dicts (merged by the `add_messages` reducer, i.e. appended).
-/

/-- The value stored in the RAG state's `documents` field: either a list of
document records or a plain string (the wired tool's actual return type). -/
inductive DocsVal where
  | ofDocs : List Doc → DocsVal
  | ofStr : String → DocsVal
deriving DecidableEq

/-- `RAGState` of src/rag/graph.py lines 46-67. -/
structure RAGState where
  question : String
  messages : List Msg
  documents : DocsVal
  generation : String
  web_search : String
  loop_count : ℕ
  max_loops : ℕ
deriving DecidableEq

/-- The LLM oracle: maps the human-message content of a prompt to the
response content, or to the text of a raised exception. -/
abbrev Oracle := String → Except String String

/-- The Python `AttributeError` message raised by `some_string[0].get(...)`,
i.e. by indexing a string where a list of dicts was expected. -/
def attributeErrorStr : String := "\x27str\x27 object has no attribute \x27get\x27"

/-- The partial state update returned by `retrieve_node`. -/
structure RetrieveUpdate where
  documents : DocsVal
  messages : List Msg
deriving DecidableEq

/-- `retrieve_node` of src/rag/graph.py lines 74-120.  When the tool returns
a list, it is stored together with a log message.  When the tool returns a
non-empty string `s`, the code reaches `docs[0].get("title", "N/A")` (line
103, guarded by `if docs:`), which raises `AttributeError`; the `except`
branch then returns an empty document list and an error message.  When the
tool returns the empty string, the `if docs:` guard skips the indexing and
the *string itself* is stored in `documents`. -/
def retrieve_node (retrieve_tool : String → DocsVal) (state : RAGState) : RetrieveUpdate :=
  match retrieve_tool state.question with
  | .ofDocs docs =>
      { documents := .ofDocs docs,
        messages := [⟨"human",
          "[RETRIEVE] Recovered " ++ toString docs.length ++
          " documents for: " ++ state.question⟩] }
  | .ofStr s =>
      if s = "" then
        { documents := .ofStr "",
          messages := [⟨"human",
            "[RETRIEVE] Recovered 0 documents for: " ++ state.question⟩] }
      else
        { documents := .ofDocs [],
          messages := [⟨"ai", "❌ Error en retrieve: " ++ attributeErrorStr⟩] }

/-- The human message of the grading prompt (src/rag/graph.py lines
172-177); the system message is the fixed evaluator instruction ending in
"Respond with only \x27yes\x27 or \x27no\x27." -/
def gradePrompt (question doc_title doc_content : String) : String :=
  "Question: " ++ question ++ "\n\n" ++
  "Document Title: " ++ doc_title ++ "\n\n" ++
  "Document Content:\n" ++ doc_content ++ "\n\n" ++
  "Is this document relevant to the question? Answer with only \x27yes\x27 or \x27no\x27:"

/-- `grade_node` of src/rag/graph.py lines 123-195.  No documents: short-
circuit to `generate`.  Otherwise one oracle call over the question and the
first 500 characters of the top document; `generate` iff the lower-cased,
stripped answer contains `yes`, else `rewrite`; any exception (including
the `AttributeError` from a string-valued non-empty `documents`) falls back
to `generate`. -/
def grade_node (oracle : Oracle) (state : RAGState) : String :=
  match state.documents with
  | .ofStr _ => "generate"
  | .ofDocs [] => "generate"
  | .ofDocs (first_doc :: _) =>
    match oracle (gradePrompt state.question first_doc.title (pyTake first_doc.content 500)) with
    | .error _ => "generate"
    | .ok resp =>
      if pyIn "yes" (pyStrip (pyLower resp)) then "generate" else "rewrite"

/-- The partial state update returned by `rewrite_node`; `question = none`
models the `except` branch, whose returned dict has no `question` key. -/
structure RewriteUpdate where
  question : Option String
  loop_count : ℕ
  messages : List Msg
deriving DecidableEq

/-- The human message of the rewriting prompt (src/rag/graph.py lines
238-241). -/
def rewritePrompt (original_question : String) : String :=
  "Original question: " ++ original_question ++ "\n\n" ++
  "Rewritten question (more specific and searchable):"

/-- `rewrite_node` of src/rag/graph.py lines 198-268: on success the
stripped oracle answer becomes the new question and the loop counter is
incremented; on oracle failure the returned dict omits `question` (so the
previous one is kept) but the counter is still incremented. -/
def rewrite_node (oracle : Oracle) (state : RAGState) : RewriteUpdate :=
  match oracle (rewritePrompt state.question) with
  | .ok resp =>
      { question := some (pyStrip resp),
        loop_count := state.loop_count + 1,
        messages := [⟨"ai", "[REWRITE] Reformulated question: " ++ pyStrip resp⟩] }
  | .error e =>
      { question := none,
        loop_count := state.loop_count + 1,
        messages := [⟨"ai", "❌ Error en rewrite: " ++ e⟩] }

/-- The partial state update returned by `generate_node`. -/
structure GenerateUpdate where
  generation : String
  messages : List Msg
deriving DecidableEq

/-- The fixed no-documents answer of `generate_node` (src/rag/graph.py
lines 304-308). -/
def noDocumentsMessage : String :=
  "No pude encontrar documentos relevantes para tu pregunta. " ++
  "Por favor, intenta con una pregunta más específica o verifica " ++
  "que los documentos necesarios estén cargados."

/-- One context block `[Documento i: title]\ncontent` (src/rag/graph.py
line 320). -/
def docContext (i : ℕ) (doc : Doc) : String :=
  "[Documento " ++ toString i ++ ": " ++ doc.title ++ "]\n" ++ doc.content

/-- The combined context of the first 5 documents, joined by the divider
(src/rag/graph.py lines 316-322). -/
def combinedContext (docs : List Doc) : String :=
  String.intercalate "\n\n---\n\n" (((docs.take 5).enumFrom 1).map fun p => docContext p.1 p.2)

/-- The human message of the generation prompt (src/rag/graph.py lines
336-340). -/
def generatePrompt (question context : String) : String :=
  "Question: " ++ question ++ "\n\n" ++
  "Documents:\n" ++ context ++ "\n\n" ++
  "Answer the question using only the above documents:"

/-- `generate_node` of src/rag/graph.py lines 271-365.  Empty documents
(empty list, or the falsy empty string): the fixed no-documents message,
with no oracle call.  A proper document list: one oracle call over the
combined context; failure yields the explicit error generation.  A
non-empty string in `documents`: the `doc.get` calls at lines 318-319 raise
`AttributeError`, so the `except` branch yields the corresponding error
generation. -/
def generate_node (oracle : Oracle) (state : RAGState) : GenerateUpdate :=
  match state.documents with
  | .ofDocs [] =>
      { generation := noDocumentsMessage,
        messages := [⟨"ai", "[GENERATE] No documents available"⟩] }
  | .ofStr s =>
      if s = "" then
        { generation := noDocumentsMessage,
          messages := [⟨"ai", "[GENERATE] No documents available"⟩] }
      else
        { generation := "Error generando respuesta: " ++ attributeErrorStr,
          messages := [⟨"ai", "❌ Error en generate: " ++ attributeErrorStr⟩] }
  | .ofDocs (d :: rest) =>
      match oracle (generatePrompt state.question (combinedContext (d :: rest))) with
      | .ok resp =>
          { generation := pyStrip resp,
            messages := [⟨"ai", "[GENERATE] Generated answer from " ++
              toString (d :: rest).length ++ " documents"⟩] }
      | .error e =>
          { generation := "Error generando respuesta: " ++ e,
            messages := [⟨"ai", "❌ Error en generate: " ++ e⟩] }

/-- `should_continue_retrieve` of src/rag/graph.py lines 399-421: the
loop-bound conditional that the source defines (and documents) but never
wires into the compiled graph. -/
def should_continue_retrieve (state : RAGState) : String :=
  if state.max_loops ≤ state.loop_count then "generate" else "retrieve"

/-- `should_rewrite` of src/rag/graph.py lines 372-396: also never wired;
both of its branches return `generate`. -/
def should_rewrite (state : RAGState) : String :=
  if state.max_loops ≤ state.loop_count then "generate" else "generate"

/-- `create_initial_rag_state` of src/rag/graph.py lines 622-641. -/
def create_initial_rag_state (question : String) (max_loops : ℕ) : RAGState :=
  { question := question, messages := [], documents := .ofDocs [],
    generation := "", web_search := "no", loop_count := 0, max_loops := max_loops }

/-!
Graph construction.  `compile_rag_graph` (src/rag/graph.py lines 428-615)
builds three successive `StateGraph` workflows.  The second one, created at
line 541, registers the node name `retrieve` twice â at line 544 and again
at line 563, with only comments and local function definitions in between â
and langgraph's `StateGraph.add_node` raises
`ValueError("Node `retrieve` already present.")` on a duplicate node name.
The function therefore raises at line 563 on every call: the third
workflow (line 588) and the wiring at lines 596-606 are dead code, and no
compiled RAG graph â hence no run of the retrieval loop â ever exists.
The model below embeds the builder bookkeeping a `StateGraph` accumulates
(node names, plain edges, conditional-edge sources) and traces the exact
sequence of construction calls the function body makes; the one library
call that can raise before `compile()` returns `Except`.
-/

/-- The builder state of a langgraph `StateGraph`: registered node names,
plain edges, and the source nodes of conditional edges.  The node and edge
functions the source attaches are the functions embedded above; only the
names matter for construction. -/
structure GraphBuilder where
  nodes : List String
  edges : List (String × String)
  branches : List String
deriving DecidableEq

/-- langgraph's `START` sentinel node name. -/
def START : String := "__start__"

/-- langgraph's `END` sentinel node name. -/
def END : String := "__end__"

/-- `StateGraph.add_node`: raises
`ValueError(f"Node `{key}` already present.")` when the node name is
already registered, otherwise records it. -/
def add_node (g : GraphBuilder) (key : String) : Except String GraphBuilder :=
  if key ∈ g.nodes then Except.error ("Node `" ++ key ++ "` already present.")
  else Except.ok { g with nodes := g.nodes ++ [key] }

/-- `StateGraph.add_edge`: records the edge (endpoint validation happens
only at `compile()`, which this source never reaches). -/
def add_edge (g : GraphBuilder) (s t : String) : GraphBuilder :=
  { g with edges := g.edges ++ [(s, t)] }

/-- `StateGraph.add_conditional_edges`: records the branch source (no
duplicate branch source occurs in the traced sequence, so no raise is
modelled). -/
def add_conditional_edges (g : GraphBuilder) (source : String) : GraphBuilder :=
  { g with branches := g.branches ++ [source] }

/-- A fresh `StateGraph(RAGState)`. -/
def new_state_graph : GraphBuilder := { nodes := [], edges := [], branches := [] }

/-- `compile_rag_graph` of src/rag/graph.py lines 428-615, as the sequence
of graph-construction calls its body performs.  The first workflow (line
475) registers four nodes and two edges and is then abandoned.  The second
workflow (line 541) registers `retrieve` at line 544 and again at line
563: the duplicate `add_node` raises `ValueError`, the exception
propagates out of `compile_rag_graph`, and everything from line 564 on â
including the third workflow of lines 588-606 and its `compile()` â is
dead code (still traced below for fidelity; the `Except` chain
short-circuits at the raise). -/
def compile_rag_graph : Except String GraphBuilder := do
  let w1 := new_state_graph                      -- line 475
  let w1 ← add_node w1 "retrieve"                -- line 479
  let w1 ← add_node w1 "grade"                   -- line 484
  let w1 ← add_node w1 "rewrite"                 -- line 489
  let w1 ← add_node w1 "generate"                -- line 494
  let w1 := add_edge w1 START "retrieve"         -- line 501
  let _ := add_edge w1 "retrieve" "grade"        -- line 504 (w1 then abandoned)
  let w2 := new_state_graph                      -- line 541 (workflow rebound)
  let w2 ← add_node w2 "retrieve"                -- line 544
  let w2 ← add_node w2 "retrieve"                -- line 563: raises here
  let w2 ← add_node w2 "rewrite"                 -- line 564 (dead code from here)
  let w2 ← add_node w2 "generate"                -- line 565
  let w2 := add_edge w2 START "retrieve"         -- line 568
  let w2 := add_edge w2 "retrieve" "grade"       -- line 569
  let w2 := add_conditional_edges w2 "grade"     -- lines 570-577
  let w2 := add_edge w2 "rewrite" "retrieve"     -- line 578
  let _ := add_edge w2 "generate" END            -- line 579 (w2 then abandoned)
  let w3 := new_state_graph                      -- line 588 (workflow rebound)
  let w3 ← add_node w3 "retrieve"                -- line 591
  let w3 ← add_node w3 "rewrite"                 -- line 592
  let w3 ← add_node w3 "generate"                -- line 593
  let w3 := add_edge w3 START "retrieve"         -- line 596
  let w3 := add_conditional_edges w3 "retrieve"  -- lines 597-604
  let w3 := add_edge w3 "rewrite" "retrieve"     -- line 605
  let w3 := add_edge w3 "generate" END           -- line 606
  return w3                                      -- lines 609, 615 (compile and return)

/-- Merge a `rewrite_node` update into the RAG state (channel semantics of
the `RAGState` graph: an absent `question` key keeps the old question,
`loop_count` is overwritten, messages are appended by `add_messages`). -/
def applyRewrite (u : RewriteUpdate) (s : RAGState) : RAGState :=
  { s with question := u.question.getD s.question,
           loop_count := u.loop_count,
           messages := s.messages ++ u.messages }

/-- A sample document record, used by the grade/generate fixtures and
witnesses. -/
def demoDoc : Doc :=
  { id := 99, title := "Doc de prueba", content := "contenido de prueba",
    category := "general", tags := ["prueba"] }

/-!
Specification mirrors.  The following definitions are written from the
wording of the claims (not from the source) and exist only to be compared
with the source-derived definitions above.
-/

/-- Mirror of claim C4's selection rule as stated: the category with the
strictly highest count among those with positive count, ties broken by the
precedence order file-access (drive), finance, health, documents. -/
def selectContextClaimOrder (drive_score finance_score health_score docs_score : ℕ) : String :=
  if 0 < drive_score ∧ finance_score ≤ drive_score ∧ health_score ≤ drive_score ∧
      docs_score ≤ drive_score then "drive"
  else if 0 < finance_score ∧ drive_score ≤ finance_score ∧ health_score ≤ finance_score ∧
      docs_score ≤ finance_score then "finance"
  else if 0 < health_score ∧ drive_score ≤ health_score ∧ finance_score ≤ health_score ∧
      docs_score ≤ health_score then "health"
  else if 0 < docs_score ∧ drive_score ≤ docs_score ∧ finance_score ≤ docs_score ∧
      health_score ≤ docs_score then "docs"
  else "general"

/-- Claim C4's router as stated: keyword counts on the lower-cased
utterance, selection by `selectContextClaimOrder`. -/
def routerClaimClassify (utterance : String) : String :=
  selectContextClaimOrder
    (countKeywords drive_keywords (pyLower utterance))
    (countKeywords finance_keywords (pyLower utterance))
    (countKeywords health_keywords (pyLower utterance))
    (countKeywords docs_keywords (pyLower utterance))

/-- The amended selection rule actually implemented by the `if`/`elif`
cascade: the maximal positive count wins, but ties among maximal counts go
to the *later* category in the order drive, finance, health, documents. -/
def selectContextLastMax (drive_score finance_score health_score docs_score : ℕ) : String :=
  if 0 < docs_score ∧ drive_score ≤ docs_score ∧ finance_score ≤ docs_score ∧
      health_score ≤ docs_score then "docs"
  else if 0 < health_score ∧ drive_score ≤ health_score ∧ finance_score ≤ health_score ∧
      docs_score ≤ health_score then "health"
  else if 0 < finance_score ∧ drive_score ≤ finance_score ∧ health_score ≤ finance_score ∧
      docs_score ≤ finance_score then "finance"
  else if 0 < drive_score ∧ finance_score ≤ drive_score ∧ health_score ≤ drive_score ∧
      docs_score ≤ drive_score then "drive"
  else "general"

/-- Mirror of claim C8's per-keyword weight: exact tag match 2, partial tag
substring 1, title substring 1.5, category substring 1, otherwise 0. -/
def keywordWeightSpec (doc : Doc) (keyword : String) : ℚ :=
  if keyword ∈ doc.tags.map pyLower then 2
  else if (doc.tags.map pyLower).any (fun tag => pyIn keyword tag) then 1
  else if pyIn keyword (pyLower doc.title) then 1.5
  else if pyIn keyword (pyLower doc.category) then 1
  else 0

/-- Mirror of claim C8's keyword-overlap score of a document: the sum of
the per-keyword weights. -/
def keywordOverlapSpec (keywords : List String) (doc : Doc) : ℚ :=
  (keywords.map (keywordWeightSpec doc)).sum

/-- Mirror of claim C8's phase 1: every document with positive keyword
overlap, scored 60/40 against the similarity of the query to the first 300
characters of the content. -/
def phase1Spec (sim : Sim) (docs : List Doc) (query : String) (keywords : List String) :
    List SearchResult :=
  (docs.filter (fun doc => decide (0 < keywordOverlapSpec keywords doc))).map
    (fun doc => ⟨doc, keywordOverlapSpec keywords doc * 0.6 +
      sim query (pyTake doc.content 300) * 0.4, "tag_match"⟩)

/-- Mirror of claim C8's phase 2: the documents not already retrieved whose
whole-content similarity to the query exceeds 0.15. -/
def phase2Spec (sim : Sim) (docs : List Doc) (query : String) (p1 : List SearchResult) :
    List SearchResult :=
  (docs.filter (fun doc =>
      !(p1.any (fun r => r.doc.id == doc.id)) && decide ((0.15 : ℚ) < sim query doc.content))).map
    (fun doc => ⟨doc, sim query doc.content, "content_match"⟩)

/-- Mirror of claim C8's whole algorithm: phase 1; phase 2 only when phase 1
produced fewer than `top_k` results; sort descending by score; truncate to
`top_k`. -/
def searchDocumentsSpec (sim : Sim) (docs : List Doc) (query : String) (top_k : ℕ) :
    List SearchResult :=
  let keywords := pySplitWs (pyLower query)
  let p1 := phase1Spec sim docs query keywords
  let all := if p1.length < top_k then p1 ++ phase2Spec sim docs query p1 else p1
  (sortByScoreDesc all).take top_k

/-!
Fixtures used by witnesses.
-/

/-- A degenerate similarity oracle used to instantiate `Sim` in witnesses. -/
def simZero : Sim := fun _ _ => 0

/-- A RAG state holding the demo document, used to exercise the grade and
generate nodes. -/
def gradeStDemo : RAGState :=
  { create_initial_rag_state "q" 3 with documents := .ofDocs [demoDoc] }

/-- A RAG state with a recognisable question, used to exercise the rewrite
node. -/
def rewriteStDemo : RAGState := create_initial_rag_state "pregunta original" 3

/-!
Theorems.
-/

lemma selectContext_eq_lastMax (dr f h d : ℕ) :
    selectContext dr f h d = selectContextLastMax dr f h d := by
  unfold selectContext selectContextLastMax
  split_ifs <;> first | rfl | omega

/-- C1: the claimed invariant quantifies over runs of the document
retrieval loop, but no such run exists: `compile_rag_graph` raises
`ValueError("Node `retrieve` already present.")` at line 563, because the
`StateGraph` created at line 541 registers the node name `retrieve` at
line 544 and again at line 563, so construction aborts before any loop is
built or started.  The guard that would have forced `generate` at the
retry limit (`should_continue_retrieve`) exists in the source but is
unreachable along with everything else. -/
theorem c1_compile_rag_graph_raises :
    compile_rag_graph = Except.error "Node `retrieve` already present." ∧
    should_continue_retrieve { create_initial_rag_state "q" 1 with loop_count := 1 } = "generate" := by
  exact ⟨rfl, rfl⟩

/-- The loop guard the source defines but never wires would indeed have
forced `generate` at the limit. -/
theorem should_continue_retrieve_forces_generate (st : RAGState)
    (h : st.max_loops ≤ st.loop_count) : should_continue_retrieve st = "generate" := by
  simp [should_continue_retrieve, h]

/-- Witness for `should_continue_retrieve_forces_generate`. -/
theorem should_continue_retrieve_forces_generate_witness :
    should_continue_retrieve { create_initial_rag_state "q" 0 with loop_count := 0 } = "generate" :=
  should_continue_retrieve_forces_generate _ (by decide)

/-- C2: Scenario D's run can never start, let alone terminate after one
rewrite and proceed to Generate: `compile_rag_graph` never returns a
compiled graph (first conjunct), because the `add_node` call of line 563 â
performed on the builder state that line 544 left holding exactly the node
`retrieve` â raises the duplicate-node `ValueError` (second conjunct).  So
no invocation with `max_loops = 1` performs any rewrite, retrieval pass or
grading/rewriting oracle call at all. -/
theorem c2_compile_rag_graph_never_returns :
    compile_rag_graph.toOption = none ∧
    add_node { nodes := ["retrieve"], edges := [], branches := [] } "retrieve" =
      Except.error "Node `retrieve` already present." := by
  exact ⟨rfl, rfl⟩

/-- C4 counterexample: the utterance "dinero salud" scores 1 for finance
and 1 for health; the claimed precedence (finance before health) selects
finance, but the router returns health. -/
theorem c4_counterexample_tie_break :
    router_node [⟨"human", "dinero salud"⟩] = "health" ∧
    routerClaimClassify "dinero salud" = "finance" ∧
    ("health" : String) ≠ "finance" := by
  decide

/-- C4 (amended): the router scores categories by the number of their
keywords occurring as substrings of the lower-cased utterance and returns
the category with the strictly highest positive count, but ties among
maximal counts are broken in favour of the *later* category in the order
drive, finance, health, documents; with no positive count it returns
general.  Scenario E of the spec holds as stated. -/
theorem c4_router_scoring_amended :
    (∀ utterance : String,
        router_node [⟨"human", utterance⟩] =
          selectContextLastMax
            (countKeywords drive_keywords (pyLower utterance))
            (countKeywords finance_keywords (pyLower utterance))
            (countKeywords health_keywords (pyLower utterance))
            (countKeywords docs_keywords (pyLower utterance)))
    ∧ router_node [⟨"human", "¿Cuánto dinero gasté?"⟩] = "finance"
    ∧ router_node [⟨"human", "Tengo dolor de cabeza"⟩] = "general" := by
  refine ⟨?_, by decide, by decide⟩
  intro u
  show classifyText (pyLower u) = _
  unfold classifyText
  exact selectContext_eq_lastMax _ _ _ _

/-- C10: the router always returns one of the five fixed categories; an
empty history returns `general` immediately; the `except` wrapper maps any
raised error to `general`. -/
theorem c10_router_total_and_safe :
    (∀ messages : List Msg,
        router_node messages ∈ (["drive", "finance", "health", "docs", "general"] : List String))
    ∧ router_node [] = "general"
    ∧ (∀ e : String, router_node_guarded (.error e) = "general") := by
  refine ⟨?_, rfl, fun _ => rfl⟩
  intro msgs
  cases hm : msgs.getLast? with
  | none => simp [router_node, hm]
  | some m =>
    simp only [router_node, hm, classifyText, selectContext]
    split_ifs <;> simp

lemma str_append_ne_empty {s : String} (t : String) (h : s ≠ "") : s ++ t ≠ "" := by
  intro hc
  apply h
  have hd := congrArg String.data hc
  rw [String.data_append] at hd
  have hs : s.data = [] := (List.append_eq_nil.mp hd).1
  cases s with
  | mk d => subst hs; rfl

lemma retrieve_documents_ne_empty (sim : Sim) (query : String) :
    retrieve_documents sim query ≠ "" := by
  unfold retrieve_documents
  by_cases h1 : query = "" ∨ (pyStrip query).length < 2
  · rw [if_pos h1]; decide
  · rw [if_neg h1]
    by_cases h2 : _search_documents sim query 3 = []
    · show (if _search_documents sim query 3 = [] then _ else _) ≠ ""
      rw [if_pos h2]
      exact str_append_ne_empty _ (by decide)
    · show (if _search_documents sim query 3 = [] then _ else _) ≠ ""
      rw [if_neg h2]
      exact str_append_ne_empty _ (by decide)

/-- C3: the wired retrieval tool `retrieve_documents` returns a non-empty
string on every input, and `retrieve_node` applied to any tool returning
non-empty strings takes its exception branch (the string is indexed as a
list of document dicts), producing an empty document list and an error
message. -/
theorem c3_wired_tool_yields_empty_documents :
    (∀ (sim : Sim) (query : String), retrieve_documents sim query ≠ "")
    ∧ (∀ (tool : String → String) (st : RAGState), (∀ q, tool q ≠ "") →
        retrieve_node (fun q => .ofStr (tool q)) st =
          { documents := .ofDocs [],
            messages := [⟨"ai", "❌ Error en retrieve: " ++ attributeErrorStr⟩] }) := by
  refine ⟨retrieve_documents_ne_empty, ?_⟩
  intro tool st h
  simp [retrieve_node, h st.question]

/-- Witness for C3: the actually wired configuration (tool =
`retrieve_documents`) leaves the Retrieve node with an empty document list. -/
theorem c3_witness :
    retrieve_node (fun q => .ofStr (retrieve_documents simZero q))
        (create_initial_rag_state "q" 3) =
      { documents := .ofDocs [],
        messages := [⟨"ai", "❌ Error en retrieve: " ++ attributeErrorStr⟩] } :=
  c3_wired_tool_yields_empty_documents.2 (retrieve_documents simZero)
    (create_initial_rag_state "q" 3)
    (fun q => c3_wired_tool_yields_empty_documents.1 simZero q)

/-- C5: Grade short-circuits to `generate` on an empty document list (for
every oracle, i.e. without consulting it); with documents present its
decision is exactly a function of the oracle's answer to the single
grading prompt over the first document's 500-character excerpt, `generate`
iff the lower-cased answer contains `yes`; the answer "No, not relevant."
routes to `rewrite` and "Yes" to `generate`; a raising oracle fails open to
`generate`. -/
theorem c5_grade_decision :
    (∀ (oracle : Oracle) (st : RAGState), st.documents = .ofDocs [] →
        grade_node oracle st = "generate")
    ∧ (∀ (oracle : Oracle) (st : RAGState) (d : Doc) (rest : List Doc),
        st.documents = .ofDocs (d :: rest) →
        grade_node oracle st =
          match oracle (gradePrompt st.question d.title (pyTake d.content 500)) with
          | .error _ => "generate"
          | .ok resp => if pyIn "yes" (pyStrip (pyLower resp)) then "generate" else "rewrite")
    ∧ (∀ (st : RAGState) (d : Doc) (rest : List Doc), st.documents = .ofDocs (d :: rest) →
        grade_node (fun _ => .ok "No, not relevant.") st = "rewrite")
    ∧ (∀ (st : RAGState) (d : Doc) (rest : List Doc), st.documents = .ofDocs (d :: rest) →
        grade_node (fun _ => .ok "Yes") st = "generate")
    ∧ (∀ (st : RAGState) (e : String), grade_node (fun _ => .error e) st = "generate") := by
  refine ⟨?_, ?_, ?_, ?_, ?_⟩
  · intro o st h; simp [grade_node, h]
  · intro o st d rest h; simp [grade_node, h]
  · intro st d rest h; simp only [grade_node, h]; decide
  · intro st d rest h; simp only [grade_node, h]; decide
  · intro st e
    cases h : st.documents with
    | ofStr s => simp [grade_node, h]
    | ofDocs l => cases l <;> simp [grade_node, h]

/-- Witness for C5 at concrete states and oracles. -/
theorem c5_witness :
    grade_node (fun _ => Except.ok "No, not relevant.") gradeStDemo = "rewrite" ∧
    grade_node (fun _ => Except.ok "Yes") gradeStDemo = "generate" ∧
    grade_node (fun _ => Except.error "boom") gradeStDemo = "generate" ∧
    grade_node (fun _ => Except.ok "Yes") { gradeStDemo with documents := .ofDocs [] } = "generate" :=
  ⟨c5_grade_decision.2.2.1 gradeStDemo demoDoc [] rfl,
   c5_grade_decision.2.2.2.1 gradeStDemo demoDoc [] rfl,
   c5_grade_decision.2.2.2.2 gradeStDemo "boom",
   c5_grade_decision.1 _ _ rfl⟩

/-- C6: the Rewrite node increments `loop_count` by exactly 1 in both
branches; on oracle failure the working question is left unchanged, on
success it becomes the trimmed oracle response. -/
theorem c6_rewrite_counter_and_question :
    (∀ (oracle : Oracle) (st : RAGState),
        (applyRewrite (rewrite_node oracle st) st).loop_count = st.loop_count + 1)
    ∧ (∀ (oracle : Oracle) (st : RAGState) (e : String),
        oracle (rewritePrompt st.question) = .error e →
        (applyRewrite (rewrite_node oracle st) st).question = st.question)
    ∧ (∀ (oracle : Oracle) (st : RAGState) (r : String),
        oracle (rewritePrompt st.question) = .ok r →
        (applyRewrite (rewrite_node oracle st) st).question = pyStrip r) := by
  refine ⟨?_, ?_, ?_⟩
  · intro o st
    cases h : o (rewritePrompt st.question) <;> simp [applyRewrite, rewrite_node, h]
  · intro o st e h; simp [applyRewrite, rewrite_node, h]
  · intro o st r h; simp [applyRewrite, rewrite_node, h]

/-- Witness for C6: a failing rewrite keeps the question and still bumps
the counter; a succeeding rewrite installs the trimmed response. -/
theorem c6_witness :
    (applyRewrite (rewrite_node (fun _ => Except.error "boom") rewriteStDemo) rewriteStDemo).loop_count = 1 ∧
    (applyRewrite (rewrite_node (fun _ => Except.error "boom") rewriteStDemo) rewriteStDemo).question = "pregunta original" ∧
    (applyRewrite (rewrite_node (fun _ => Except.ok " nueva pregunta ") rewriteStDemo) rewriteStDemo).question = pyStrip " nueva pregunta " :=
  ⟨c6_rewrite_counter_and_question.1 _ rewriteStDemo,
   c6_rewrite_counter_and_question.2.1 _ rewriteStDemo "boom" rfl,
   c6_rewrite_counter_and_question.2.2 _ rewriteStDemo " nueva pregunta " rfl⟩

/-- C7: Generate with an empty document list returns the fixed no-documents
message for every oracle (no call) and every question; with documents
present, a raising oracle yields the explicit error string as the
generation. -/
theorem c7_generate_fallbacks :
    (∀ (oracle : Oracle) (st : RAGState), st.documents = .ofDocs [] →
        (generate_node oracle st).generation = noDocumentsMessage)
    ∧ (∀ (oracle : Oracle) (st : RAGState) (d : Doc) (rest : List Doc) (e : String),
        st.documents = .ofDocs (d :: rest) →
        oracle (generatePrompt st.question (combinedContext (d :: rest))) = .error e →
        (generate_node oracle st).generation = "Error generando respuesta: " ++ e) := by
  constructor
  · intro o st h; simp [generate_node, h]
  · intro o st d rest e h ho; simp [generate_node, h, ho]

/-- Witness for C7. -/
theorem c7_witness :
    (generate_node (fun _ => Except.ok "resp") (create_initial_rag_state "q" 3)).generation = noDocumentsMessage ∧
    (generate_node (fun _ => Except.error "boom") gradeStDemo).generation = "Error generando respuesta: " ++ "boom" :=
  ⟨c7_generate_fallbacks.1 _ _ rfl,
   c7_generate_fallbacks.2 _ gradeStDemo demoDoc [] "boom" rfl rfl⟩

lemma mem_insertByScore {x z : SearchResult} :
    ∀ {l : List SearchResult}, z ∈ insertByScore x l ↔ z = x ∨ z ∈ l := by
  intro l
  induction l with
  | nil => simp [insertByScore]
  | cons y ys ih =>
    by_cases h : y.score ≤ x.score
    · simp [insertByScore, h]
    · simp only [insertByScore, if_neg h, List.mem_cons, ih]
      tauto

lemma pairwise_insertByScore {x : SearchResult} :
    ∀ {l : List SearchResult}, l.Pairwise (fun a b => b.score ≤ a.score) →
      (insertByScore x l).Pairwise (fun a b => b.score ≤ a.score) := by
  intro l
  induction l with
  | nil => intro _; simp [insertByScore]
  | cons y ys ih =>
    intro hp
    rcases List.pairwise_cons.mp hp with ⟨hy, hys⟩
    by_cases h : y.score ≤ x.score
    · rw [insertByScore, if_pos h]
      refine List.pairwise_cons.mpr ⟨?_, hp⟩
      intro z hz
      rcases List.mem_cons.mp hz with hz | hz
      · exact hz ▸ h
      · exact le_trans (hy z hz) h
    · rw [insertByScore, if_neg h]
      refine List.pairwise_cons.mpr ⟨?_, ih hys⟩
      intro z hz
      rcases mem_insertByScore.mp hz with hz | hz
      · exact hz ▸ le_of_not_le h
      · exact hy z hz

lemma pairwise_sortByScoreDesc :
    ∀ l : List SearchResult,
      (sortByScoreDesc l).Pairwise (fun a b => b.score ≤ a.score) := by
  intro l
  induction l with
  | nil => simp [sortByScoreDesc]
  | cons x xs ih => exact pairwise_insertByScore ih

lemma length_insertByScore (x : SearchResult) :
    ∀ l : List SearchResult, (insertByScore x l).length = l.length + 1 := by
  intro l
  induction l with
  | nil => rfl
  | cons y ys ih =>
    by_cases h : y.score ≤ x.score
    · simp [insertByScore, h]
    · simp [insertByScore, h, ih]

lemma length_sortByScoreDesc :
    ∀ l : List SearchResult, (sortByScoreDesc l).length = l.length := by
  intro l
  induction l with
  | nil => rfl
  | cons x xs ih => simp [sortByScoreDesc, length_insertByScore, ih]

lemma foldl_append_filter_map {α β : Type} (p : α → Prop) [DecidablePred p] (f : α → β) :
    ∀ (l : List α) (init : List β),
      l.foldl (fun acc x => if p x then acc ++ [f x] else acc) init
        = init ++ (l.filter (fun x => decide (p x))).map f := by
  intro l
  induction l with
  | nil => intro init; simp
  | cons a rest ih =>
    intro init
    rw [List.foldl_cons]
    by_cases h : p a
    · rw [if_pos h, ih, List.filter_cons]
      simp [h]
    · rw [if_neg h, ih, List.filter_cons]
      simp [h]

lemma tag_matches_aux (doc : Doc) :
    ∀ (l : List String) (acc : ℚ),
      l.foldl (fun acc keyword =>
        if keyword ∈ doc.tags.map pyLower then acc + 2
        else if (doc.tags.map pyLower).any (fun tag => pyIn keyword tag) then acc + 1
        else if pyIn keyword (pyLower doc.title) then acc + 1.5
        else if pyIn keyword (pyLower doc.category) then acc + 1
        else acc) acc
      = acc + (l.map (keywordWeightSpec doc)).sum := by
  intro l
  induction l with
  | nil => intro acc; simp
  | cons kw rest ih =>
    intro acc
    rw [List.foldl_cons, ih, List.map_cons, List.sum_cons]
    unfold keywordWeightSpec
    split_ifs <;> ring

lemma tag_matches_eq_overlap (keywords : List String) (doc : Doc) :
    tag_matches keywords doc = keywordOverlapSpec keywords doc := by
  unfold tag_matches keywordOverlapSpec
  rw [tag_matches_aux]
  ring

lemma phase1_eq_spec (sim : Sim) (docs : List Doc) (query : String) (keywords : List String) :
    phase1 sim docs query keywords = phase1Spec sim docs query keywords := by
  unfold phase1 phase1Spec
  rw [foldl_append_filter_map (fun doc => 0 < tag_matches keywords doc)
      (fun doc => (⟨doc, tag_matches keywords doc * 0.6 +
        sim query (pyTake doc.content 300) * 0.4, "tag_match"⟩ : SearchResult)) docs []]
  simp only [List.nil_append, tag_matches_eq_overlap]

lemma phase2_eq_spec_aux (sim : Sim) (query : String) (p1 : List SearchResult) :
    ∀ (docs : List Doc) (acc : List SearchResult),
      (docs.map Doc.id).Nodup →
      (∀ d ∈ docs, acc.any (fun r => r.doc.id == d.id) = p1.any (fun r => r.doc.id == d.id)) →
      docs.foldl (fun results doc =>
          if results.any (fun r => r.doc.id == doc.id) then results
          else if (0.15 : ℚ) < sim query doc.content then
            results ++ [⟨doc, sim query doc.content, "content_match"⟩]
          else results) acc
        = acc ++ (docs.filter (fun doc =>
            !(p1.any (fun r => r.doc.id == doc.id)) &&
              decide ((0.15 : ℚ) < sim query doc.content))).map
            (fun doc => ⟨doc, sim query doc.content, "content_match"⟩) := by
  intro docs
  induction docs with
  | nil => intro acc _ _; simp
  | cons d rest ih =>
    intro acc hnodup hacc
    rw [List.map_cons, List.nodup_cons] at hnodup
    have hdid : ∀ d' ∈ rest, (d.id == d'.id) = false := by
      intro d' hd'
      have hne : d.id ≠ d'.id := fun hEq => hnodup.1 (hEq ▸ List.mem_map_of_mem Doc.id hd')
      simpa using hne
    have hd := hacc d (List.mem_cons_self d rest)
    rw [List.foldl_cons, List.filter_cons]
    by_cases hp1 : p1.any (fun r => r.doc.id == d.id) = true
    · rw [if_pos (by rw [hd]; exact hp1)]
      rw [ih acc hnodup.2 (fun d' hd' => hacc d' (List.mem_cons_of_mem d hd'))]
      simp [hp1]
    · have haccd : acc.any (fun r => r.doc.id == d.id) = false := by
        rw [hd]; simpa using hp1
      rw [if_neg (by rw [haccd]; exact Bool.false_ne_true)]
      by_cases hsim : (0.15 : ℚ) < sim query d.content
      · rw [if_pos hsim]
        have hacc' : ∀ d' ∈ rest,
            (acc ++ [(⟨d, sim query d.content, "content_match"⟩ : SearchResult)]).any
              (fun r => r.doc.id == d'.id) = p1.any (fun r => r.doc.id == d'.id) := by
          intro d' hd'
          rw [List.any_append]
          have h1 : ([(⟨d, sim query d.content, "content_match"⟩ : SearchResult)] : List SearchResult).any
              (fun r => r.doc.id == d'.id) = false := by
            simp [hdid d' hd']
          rw [h1, hacc d' (List.mem_cons_of_mem d hd')]
          simp
        rw [ih _ hnodup.2 hacc']
        have hcond : (!(p1.any (fun r => r.doc.id == d.id)) &&
            decide ((0.15 : ℚ) < sim query d.content)) = true := by
          simp [hp1, hsim]
        rw [if_pos hcond]
        simp [List.append_assoc]
      · rw [if_neg hsim]
        rw [ih acc hnodup.2 (fun d' hd' => hacc d' (List.mem_cons_of_mem d hd'))]
        have hcond : (!(p1.any (fun r => r.doc.id == d.id)) &&
            decide ((0.15 : ℚ) < sim query d.content)) = false := by
          simp [hsim]
        rw [if_neg (by rw [hcond]; exact Bool.false_ne_true)]

lemma phase2_eq_spec (sim : Sim) (docs : List Doc) (query : String) (p1 : List SearchResult)
    (h : (docs.map Doc.id).Nodup) :
    phase2 sim docs query p1 = p1 ++ phase2Spec sim docs query p1 := by
  unfold phase2 phase2Spec
  exact phase2_eq_spec_aux sim query p1 docs p1 h (fun d _ => rfl)

lemma searchDocumentsOver_eq_spec (sim : Sim) (docs : List Doc) (query : String) (top_k : ℕ)
    (h : (docs.map Doc.id).Nodup) :
    searchDocumentsOver sim docs query top_k = searchDocumentsSpec sim docs query top_k := by
  simp only [searchDocumentsOver, searchDocumentsSpec]
  rw [phase1_eq_spec]
  by_cases hlen : (phase1Spec sim docs query (pySplitWs (pyLower query))).length < top_k
  · rw [if_pos hlen, if_pos hlen, phase2_eq_spec sim docs query _ h]
  · rw [if_neg hlen, if_neg hlen]

lemma mock_ids_nodup : (MOCK_DOCS.map Doc.id).Nodup := by decide

/-- C8: the retrieval search implements exactly the two-phase scoring the
spec describes — phase 1 keyword overlap (weights 2 / 1 / 1.5 / 1) combined
60/40 with the similarity of the query to the first 300 content characters,
phase 2 (only when phase 1 yields fewer than `top_k` hits) adding documents
of whole-content similarity above 0.15 — with the combined list sorted
descending by score and truncated to `top_k`; moreover the result indeed
has at most `top_k` entries and is sorted descending. -/
theorem c8_search_matches_spec :
    ∀ (sim : Sim) (query : String) (top_k : ℕ),
      _search_documents sim query top_k = searchDocumentsSpec sim MOCK_DOCS query top_k ∧
      (_search_documents sim query top_k).length ≤ top_k ∧
      (_search_documents sim query top_k).Pairwise (fun a b => b.score ≤ a.score) := by
  intro sim query top_k
  refine ⟨searchDocumentsOver_eq_spec sim MOCK_DOCS query top_k mock_ids_nodup, ?_, ?_⟩
  · simp only [_search_documents, searchDocumentsOver, List.length_take]
    exact min_le_left _ _
  · simp only [_search_documents, searchDocumentsOver]
    exact (pairwise_sortByScoreDesc _).sublist (List.take_sublist _ _)

/-- C9: the retrieval search is a pure function of the query and the
catalog: two invocations with the same query against the same unchanged
catalog return the same ordered result list. -/
theorem c9_search_deterministic :
    ∀ (sim : Sim) (docs : List Doc) (q₁ q₂ : String) (top_k : ℕ), q₁ = q₂ →
      searchDocumentsOver sim docs q₁ top_k = searchDocumentsOver sim docs q₂ top_k ∧
      _search_documents sim q₁ top_k = _search_documents sim q₂ top_k := by
  intro sim docs q₁ q₂ top_k h
  subst h
  exact ⟨rfl, rfl⟩

/-- Witness for C9 at a concrete query. -/
theorem c9_witness :
    _search_documents simZero "seguro" 3 = _search_documents simZero "seguro" 3 :=
  (c9_search_deterministic simZero MOCK_DOCS "seguro" "seguro" 3 rfl).2
